import Mathlib

/-!
Verification of the sandboxed test-execution and validation core of the
legacy-code-modernizer repository (src/sandbox/validator.py,
src/sandbox/runners/{python,java,javascript}_runner.py).

Modelling conventions:
* Python strings are embedded as `List Char`; `cs` converts a Lean string
  literal to that representation.
* A subprocess invocation (`subprocess.run`) is embedded as a `ProcOutcome`
  supplied by the environment: either it completed with captured
  stdout/stderr/exit code/elapsed time, raised `TimeoutExpired`, or raised
  `FileNotFoundError`.
* Result dictionaries are embedded as the structure `TestRecord`; dictionary
  keys that a given code path does not set are `none` (for optional fields) or
  `0` (for the three count keys that every constructed result sets whenever it
  sets any of them).
* Elapsed times are modelled in whole seconds (`Int`); every constant the
  source stores on a timeout path (120.0, 300.0) is integral.  Coverage
  percentages (floating point, never mentioned by the claims) are outside the
  embedding.
* Regular-expression searches from the source are embedded as explicit
  scanners over `List Char` that try each start position from the left, as
  `re.search` does.  Where the Python pattern is greedy, the scanner is greedy;
  for the patterns used here greediness without backtracking coincides with
  the regex semantics because each greedy atom is followed by a literal that
  cannot begin the atom's character class.
-/

set_option autoImplicit false
set_option linter.unusedVariables false

/-- Convert a Lean string literal to the `List Char` representation used for
Python strings throughout this development. -/
def cs (s : String) : List Char := s.toList

/-- Python `pat in s` (substring test). -/
def containsSub (pat : List Char) : List Char → Bool
  | [] => pat.isEmpty
  | c :: r => pat.isPrefixOf (c :: r) || containsSub pat r

/-- Fuel-driven scanner behind `countSub`.  The fuel only serves structural
termination; it is always instantiated with the input's length, which bounds
the number of scan steps because every step drops at least one character. -/
def countSubAux (pat : List Char) : Nat → List Char → Nat
  | 0, _ => 0
  | _ + 1, [] => 0
  | fuel + 1, c :: r =>
    if !pat.isEmpty && pat.isPrefixOf (c :: r) then
      1 + countSubAux pat fuel ((c :: r).drop pat.length)
    else
      countSubAux pat fuel r

/-- Python `s.count(pat)` for nonempty `pat`: count non-overlapping
occurrences scanning left to right. -/
def countSub (pat s : List Char) : Nat :=
  countSubAux pat s.length s

/-- The characters Python's `\s` matches in the outputs at hand. -/
def isWsChar (c : Char) : Bool :=
  c = ' ' || c = '\t' || c = '\n' || c = '\r'

/-- Decimal digit test (`\d`). -/
def isDigitChar (c : Char) : Bool :=
  '0' ≤ c && c ≤ '9'

/-- Numeric value of a list of decimal digits. -/
def digitsVal (ds : List Char) : Nat :=
  ds.foldl (fun a c => a * 10 + (c.toNat - 48)) 0

/-- Greedy `(\d+)` at the head of the input: the digits' value and the rest. -/
def parseNatPre (s : List Char) : Option (Nat × List Char) :=
  let ds := s.takeWhile isDigitChar
  if ds.isEmpty then none else some (digitsVal ds, s.drop ds.length)

/-- Greedy `\s+` at the head of the input. -/
def skipWs1 (s : List Char) : Option (List Char) :=
  let ws := s.takeWhile isWsChar
  if ws.isEmpty then none else some (s.drop ws.length)

/-- Greedy `\s*` at the head of the input. -/
def skipWsAll (s : List Char) : List Char :=
  s.dropWhile isWsChar

/-- Match a literal at the head of the input and return the rest. -/
def dropPre (pat s : List Char) : Option (List Char) :=
  if pat.isPrefixOf s then some (s.drop pat.length) else none

/-- Match `(\d+)\s+kw` anchored at the head of the input. -/
def matchNumKwAt (kw s : List Char) : Option Nat := do
  let (n, s1) ← parseNatPre s
  let s2 ← skipWs1 s1
  if kw.isPrefixOf s2 then some n else none

/-- `re.search(r'(\d+)\s+kw', s)`: first position whose head matches. -/
def searchNumKw (kw : List Char) : List Char → Option Nat
  | [] => none
  | c :: r =>
    match matchNumKwAt kw (c :: r) with
    | some n => some n
    | none => searchNumKw kw r

/-- The tail `\s+in\s+[\d.]+s\s*=+` of the pytest summary regex, anchored at
the head of the input. -/
def pySummaryTail (s : List Char) : Bool :=
  match skipWs1 s with
  | none => false
  | some s1 =>
    match dropPre (cs ("in")) s1 with
    | none => false
    | some s2 =>
      match skipWs1 s2 with
      | none => false
      | some s3 =>
        let dd := s3.takeWhile (fun c => isDigitChar c || c = '.')
        if dd.isEmpty then false
        else
          match s3.drop dd.length with
          | 's' :: s4 =>
            match skipWsAll s4 with
            | '=' :: _ => true
            | _ => false
          | _ => false

/-- Lazy capture `(.*?)` before `pySummaryTail`: the shortest run of
non-newline characters after which the tail matches. -/
def pySummaryCapture (acc : List Char) : List Char → Option (List Char)
  | [] => none
  | c :: r =>
    if pySummaryTail (c :: r) then some acc.reverse
    else if c = '\n' then none
    else pySummaryCapture (c :: acc) r

/-- The pytest summary regex `=+\s*(.*?)\s+in\s+[\d.]+s\s*=+` anchored at the
head of the input, returning capture group 1. -/
def pySummaryAt (s : List Char) : Option (List Char) :=
  match s with
  | '=' :: r =>
    let r1 := r.dropWhile (fun c => c = '=')
    pySummaryCapture [] (skipWsAll r1)
  | _ => none

/-- `re.search` of the pytest summary regex over the whole output. -/
def extractSummary : List Char → Option (List Char)
  | [] => none
  | c :: r =>
    match pySummaryAt (c :: r) with
    | some cap => some cap
    | none => extractSummary r

/-- The five pytest counters computed by `run_python_tests`. -/
structure PyCounts where
  run : Nat
  passed : Nat
  failed : Nat
  errors : Nat
  skipped : Nat
deriving Repr, DecidableEq

/-- Summary-line strategy of `run_python_tests` (python_runner.py lines
157-179): component regexes applied to the captured summary, `tests_run` set
to the sum of the four components. -/
def pySummaryCounts (stdout : List Char) : PyCounts :=
  match extractSummary stdout with
  | some summary =>
    let p := (searchNumKw (cs ("passed")) summary).getD 0
    let f := (searchNumKw (cs ("failed")) summary).getD 0
    let e := (searchNumKw (cs ("error")) summary).getD 0
    let sk := (searchNumKw (cs ("skipped")) summary).getD 0
    ⟨p + f + e + sk, p, f, e, sk⟩
  | none => ⟨0, 0, 0, 0, 0⟩

/-- Fallback strategy of `run_python_tests` (python_runner.py lines 181-191):
count literal per-test result lines; `tests_run` is the sum of passed, failed
and errors only, while `tests_skipped` is still set from the skip count. -/
def pyFallbackCounts (stdout : List Char) : PyCounts :=
  let p := countSub (cs (" PASSED\n")) stdout
  let f := countSub (cs (" FAILED\n")) stdout
  let e := countSub (cs (" ERROR\n")) stdout
  let sk := countSub (cs (" SKIPPED\n")) stdout
  ⟨p + f + e, p, f, e, sk⟩

/-- Full pytest-output count computation of `run_python_tests`: the fallback
is taken exactly when the summary strategy produced `tests_run == 0`. -/
def pyCounts (stdout : List Char) : PyCounts :=
  let base := pySummaryCounts stdout
  if base.run = 0 then pyFallbackCounts stdout else base

example : pyCounts (cs ("===== 3 passed, 1 failed in 0.52s =====")) =
    ⟨4, 3, 1, 0, 0⟩ := by decide

example : pyCounts (cs ("test_a SKIPPED\ntest_b PASSED\n")) =
    ⟨1, 1, 0, 0, 1⟩ := by decide

/-- Accumulator for `splitLines`: current line and completed lines. -/
def splitLinesAux (s : List Char) : List Char × List (List Char) :=
  s.foldr
    (fun c p => if c = '\n' then ([], p.1 :: p.2) else (c :: p.1, p.2))
    (([] : List Char), ([] : List (List Char)))

/-- Split on a newline character, as `stdout.split('\n')` does. -/
def splitLines (s : List Char) : List (List Char) :=
  (splitLinesAux s).1 :: (splitLinesAux s).2

/-- Python `str.strip()`: remove surrounding whitespace. -/
def stripWs (s : List Char) : List Char :=
  ((skipWsAll s).reverse.dropWhile isWsChar).reverse

example : splitLines (cs ("a\nbc\n")) = [cs ("a"), cs ("bc"), []] := by decide
example : stripWs (cs ("  a b \n")) = cs ("a b") := by decide

/-- The Maven Surefire pattern
`Tests run: (\d+),\s*Failures: (\d+),\s*Errors: (\d+),\s*Skipped: (\d+)`
anchored at the head of the input (java_runner.py line 300). -/
def surefireAt (s : List Char) : Option (Nat × Nat × Nat × Nat) := do
  let s1 ← dropPre (cs ("Tests run: ")) s
  let (x, s2) ← parseNatPre s1
  let s3 ← dropPre (cs (",")) s2
  let s4 ← dropPre (cs ("Failures: ")) (skipWsAll s3)
  let (y, s5) ← parseNatPre s4
  let s6 ← dropPre (cs (",")) s5
  let s7 ← dropPre (cs ("Errors: ")) (skipWsAll s6)
  let (z, s8) ← parseNatPre s7
  let s9 ← dropPre (cs (",")) s8
  let s10 ← dropPre (cs ("Skipped: ")) (skipWsAll s9)
  let (w, _) ← parseNatPre s10
  some (x, y, z, w)

/-- `re.search` of the Surefire pattern over the whole output. -/
def findSurefire : List Char → Option (Nat × Nat × Nat × Nat)
  | [] => none
  | c :: r =>
    match surefireAt (c :: r) with
    | some q => some q
    | none => findSurefire r

example :
    findSurefire (cs ("[INFO] Tests run: 5, Failures: 1, Errors: 2, Skipped: 1")) =
      some (5, 1, 2, 1) := by decide

/-- First line containing `[ERROR]` but not `Failed to execute goal`,
stripped — the build-error extraction loop of java_runner.py lines 274-278. -/
def findErrLine : List (List Char) → Option (List Char)
  | [] => none
  | l :: r =>
    if containsSub (cs ("[ERROR]")) l && !containsSub (cs ("Failed to execute goal")) l then
      some (stripWs l)
    else findErrLine r

/-- Error-message selection on the Maven build-failure path
(java_runner.py lines 269-278). -/
def javaBuildErrMsg (stdout : List Char) : List Char :=
  if containsSub (cs ("COMPILATION ERROR")) stdout then cs ("Java compilation error")
  else if containsSub (cs ("[ERROR]")) stdout then
    (findErrLine (splitLines stdout)).getD (cs ("Maven build failed"))
  else cs ("Maven build failed")

/-- The capture of `re.search(r'Tests:\s+(.+)', stdout)` anchored at the head
of the input: the `Tests:` literal, one or more whitespace characters, then a
nonempty run of non-newline characters. -/
def jestLineAt (s : List Char) : Option (List Char) := do
  let s1 ← dropPre (cs ("Tests:")) s
  let s2 ← skipWs1 s1
  let cap := s2.takeWhile (fun c => !(c = '\n'))
  if cap.isEmpty then none else some cap

/-- `re.search(r'Tests:\s+(.+)', stdout)` over the whole output. -/
def jestLine : List Char → Option (List Char)
  | [] => none
  | c :: r =>
    match jestLineAt (c :: r) with
    | some cap => some cap
    | none => jestLine r

/-- The four Jest counters as first parsed from the `Tests:` line
(javascript_runner.py lines 249-277), before the passed-count fix-up:
`(tests_run, tests_passed, tests_failed, tests_skipped)`. -/
def jestParsed (stdout : List Char) : Int × Int × Int × Int :=
  match jestLine stdout with
  | none => (0, 0, 0, 0)
  | some line =>
    (((searchNumKw (cs ("total")) line).getD 0 : Int),
     ((searchNumKw (cs ("passed")) line).getD 0 : Int),
     ((searchNumKw (cs ("failed")) line).getD 0 : Int),
     ((searchNumKw (cs ("skipped")) line).getD 0 : Int))

/-- The Jest counters after the fix-up of javascript_runner.py lines 279-281:
when a total was parsed but neither a passed nor a failed component,
`tests_passed` is recomputed as `tests_run - tests_failed - tests_skipped`. -/
def jestCounts (stdout : List Char) : Int × Int × Int × Int :=
  match jestParsed stdout with
  | (run, p, f, sk) =>
    if run > 0 && p == 0 && f == 0 then (run, run - f - sk, f, sk)
    else (run, p, f, sk)

example : jestCounts (cs ("Tests: 1 failed, 4 passed, 5 total\n")) =
    (5, 4, 1, 0) := by decide

example : jestCounts (cs ("Tests: 2 skipped, 3 total\n")) =
    (3, 1, 0, 2) := by decide

/-- The `Test Suites:\s+(\d+)\s+failed` search of javascript_runner.py line
285, anchored at the head of the input. -/
def suitesFailedAt (s : List Char) : Option Nat := do
  let s1 ← dropPre (cs ("Test Suites:")) s
  let s2 ← skipWs1 s1
  let (n, s3) ← parseNatPre s2
  let s4 ← skipWs1 s3
  if (cs ("failed")).isPrefixOf s4 then some n else none

/-- `re.search(r'Test Suites:\s+(\d+)\s+failed', stdout)` over the output. -/
def findSuitesFailed : List Char → Option Nat
  | [] => none
  | c :: r =>
    match suitesFailedAt (c :: r) with
    | some n => some n
    | none => findSuitesFailed r


/-- Outcome of one `subprocess.run` call, supplied by the environment:
completion with captured output, `subprocess.TimeoutExpired` (carrying the
exception's text, used by the JavaScript runner's message), or
`FileNotFoundError`. -/
inductive ProcOutcome where
  | completed (stdout stderr : List Char) (exitCode : Int) (elapsed : Int)
  | timedOut (emsg : List Char)
  | notFound
deriving Repr, DecidableEq

/-- The canonical result dictionary.  Optional fields are `none` exactly when
the corresponding dictionary key is absent on the path that built the record;
the three always-present count keys default to `0` on the few paths that omit
them (the batch per-item failure records). -/
structure TestRecord where
  success : Bool
  error : Option (List Char) := none
  tests_run : Int := 0
  tests_passed : Int := 0
  tests_failed : Int := 0
  tests_errors : Option Int := none
  tests_skipped : Option Int := none
  execution_time : Option Int := none
  stdout : Option (List Char) := none
  stderr : Option (List Char) := none
  exit_code : Option Int := none
  execution_mode : List Char
  language : Option (List Char) := none
  file_path : Option (List Char) := none
deriving Repr, DecidableEq

/-- `_validate_python_tests` (python_runner.py lines 17-38).  The
`compile(tests, ...)` syntax probe is an external primitive; its outcome is
the `pySyntaxErr` oracle (`none` = compiles, `some e` = `SyntaxError` text). -/
def validate_python_tests (tests : List Char) (pySyntaxErr : Option (List Char)) :
    Bool × List Char :=
  if !containsSub (cs ("def test_")) tests && !containsSub (cs ("class Test")) tests then
    (false, cs ("No test functions found (must start with 'test_' or be in 'Test' class)"))
  else if !containsSub (cs ("import")) tests then
    (false, cs ("No import statements found"))
  else
    match pySyntaxErr with
    | some e => (false, cs ("Syntax error in test code: ") ++ e)
    | none => (true, [])

/-- `_validate_java_tests` (java_runner.py lines 161-180). -/
def validate_java_tests (tests : List Char) : Bool × List Char :=
  if !containsSub (cs ("@Test")) tests then
    (false, cs ("No @Test annotations found (required for JUnit 5)"))
  else if !containsSub (cs ("org.junit")) tests then
    (false, cs ("Missing JUnit imports (import org.junit.jupiter.api.Test)"))
  else if !containsSub (cs ("class")) tests then
    (false, cs ("No test class found"))
  else (true, [])

/-- `_validate_javascript_tests` (javascript_runner.py lines 111-130). -/
def validate_javascript_tests (tests : List Char) : Bool × List Char :=
  if !containsSub (cs ("describe(")) tests && !containsSub (cs ("test(")) tests
      && !containsSub (cs ("it(")) tests then
    (false, cs ("No Jest test functions found (describe/test/it)"))
  else if !containsSub (cs ("import")) tests && !containsSub (cs ("require")) tests then
    (false, cs ("No import/require statements found"))
  else if !containsSub (cs ("expect(")) tests then
    (false, cs ("No expect() assertions found"))
  else (true, [])

/-- The `sys.path` prologue prepended to Python test code when it has no path
setup of its own (python_runner.py lines 76-83). -/
def pyPathSetup : List Char :=
  cs ("import sys\nimport os\n# Ensure module can be imported\nsys.path.insert(0, os.path.dirname(os.path.abspath(__file__)))\n\n")

/-- Python test code as written to the scaffold: the prologue is injected
unless the tests already mention `sys.path` or `import sys`. -/
def pyTestsWithPath (tests : List Char) : List Char :=
  if !containsSub (cs ("sys.path")) tests && !containsSub (cs ("import sys")) tests then
    pyPathSetup ++ tests
  else tests

/-- `run_python_tests` (python_runner.py lines 41-219), also returning the
number of subprocess invocations consumed.  The pip-install step runs only
when `requirements` is nonempty and its outcome never influences the result
record: a nonzero exit status and any raised exception are merely logged
(lines 88-101).  On the completed path stdout and stderr are truncated to
10000 characters before parsing. -/
def run_python_tests (code tests : List Char) (requirements : List (List Char))
    (module_name : List Char) (pySyntaxErr : Option (List Char))
    (installOutcome testOutcome : ProcOutcome) : TestRecord × Nat :=
  match validate_python_tests tests pySyntaxErr with
  | (false, msg) =>
    ({ success := false, error := some (cs ("Test validation failed: ") ++ msg),
       execution_mode := cs ("modal"), language := some (cs ("python")) }, 0)
  | (true, _) =>
    let installProcs := if requirements.isEmpty then 0 else 1
    match testOutcome with
    | .timedOut _ =>
      ({ success := false, error := some (cs ("Test execution timeout (>2 minutes)")),
         execution_time := some 120,
         execution_mode := cs ("modal"), language := some (cs ("python")) },
       installProcs + 1)
    | .notFound =>
      ({ success := false, error := some (cs ("pytest not found in container")),
         execution_mode := cs ("modal"), language := some (cs ("python")) },
       installProcs + 1)
    | .completed out err rc el =>
      let so := out.take 10000
      let se := err.take 10000
      let c := pyCounts so
      ({ success := rc == 0,
         tests_run := (c.run : Int), tests_passed := (c.passed : Int),
         tests_failed := (c.failed : Int), tests_errors := some (c.errors : Int),
         tests_skipped := some (c.skipped : Int),
         execution_time := some el, stdout := some so, stderr := some se,
         exit_code := some rc,
         execution_mode := cs ("modal"), language := some (cs ("python")) },
       installProcs + 1)

/-- Parse of the Maven output by `run_java_tests` (java_runner.py lines
263-350): build-failure markers short-circuit before the Surefire search;
otherwise a Surefire match yields `tests_failed = Failures + Errors` and
`tests_passed = tests_run - tests_failed - tests_skipped`; with no match a
zero exit status is reported as "no tests detected" and a nonzero one falls
through to the final all-zero record. -/
def parseJavaOutput (stdout stderr : List Char) (rc el : Int) : TestRecord :=
  if containsSub (cs ("BUILD FAILURE")) stdout
      || containsSub (cs ("COMPILATION ERROR")) stdout
      || containsSub (cs ("BUILD FAILURE")) stderr then
    { success := false, error := some (javaBuildErrMsg stdout),
      execution_mode := cs ("modal"), language := some (cs ("java")),
      stdout := some stdout, stderr := some stderr }
  else
    match findSurefire stdout with
    | some (x, y, z, w) =>
      let failed : Int := (y : Int) + (z : Int)
      { success := rc == 0,
        tests_run := (x : Int), tests_passed := (x : Int) - failed - (w : Int),
        tests_failed := failed, tests_errors := some (z : Int),
        tests_skipped := some (w : Int),
        execution_time := some el, stdout := some stdout, stderr := some stderr,
        exit_code := some rc,
        execution_mode := cs ("modal"), language := some (cs ("java")) }
    | none =>
      if rc == 0 then
        { success := false,
          error := some (cs ("No tests detected by Maven Surefire (missing @Test annotations?)")),
          execution_mode := cs ("modal"), language := some (cs ("java")),
          stdout := some stdout, stderr := some stderr }
      else
        { success := false,
          tests_run := 0, tests_passed := 0, tests_failed := 0,
          tests_errors := some 0, tests_skipped := some 0,
          execution_time := some el, stdout := some stdout, stderr := some stderr,
          exit_code := some rc,
          execution_mode := cs ("modal"), language := some (cs ("java")) }

/-- `run_java_tests` (java_runner.py lines 183-350) with its subprocess
count.  `scaffoldErr` is the outcome of `_create_maven_project` (file-system
writes; `some e` = raised with text `e`). -/
def run_java_tests (code tests : List Char) (module_name : List Char)
    (scaffoldErr : Option (List Char)) (mvnOutcome : ProcOutcome) : TestRecord × Nat :=
  match validate_java_tests tests with
  | (false, msg) =>
    ({ success := false, error := some (cs ("Test validation failed: ") ++ msg),
       execution_mode := cs ("modal"), language := some (cs ("java")) }, 0)
  | (true, _) =>
    match scaffoldErr with
    | some e =>
      ({ success := false, error := some (cs ("Project setup failed: ") ++ e),
         execution_mode := cs ("modal"), language := some (cs ("java")) }, 0)
    | none =>
      match mvnOutcome with
      | .timedOut _ =>
        ({ success := false,
           error := some (cs ("Maven test execution timeout (>5 minutes)")),
           execution_time := some 300,
           execution_mode := cs ("modal"), language := some (cs ("java")) }, 1)
      | .notFound =>
        ({ success := false, error := some (cs ("Maven (mvn) not found in container")),
           execution_mode := cs ("modal"), language := some (cs ("java")) }, 1)
      | .completed out err rc el =>
        (parseJavaOutput (out.take 10000) (err.take 10000) rc el, 1)

/-- Parse of the Jest output by `run_javascript_tests` (javascript_runner.py
lines 238-318): the `Tests:` line counters (with fix-up), then the
test-suite-failure check, then the final record.  The final record carries no
`tests_errors` or `tests_skipped` key. -/
def parseJestOutput (stdout stderr : List Char) (rc el : Int)
    (language : List Char) : TestRecord :=
  match jestCounts stdout with
  | (run, p, f, _) =>
    if containsSub (cs ("Test Suites: ")) stdout && containsSub (cs (" failed")) stdout
        && (findSuitesFailed stdout).isSome && run == 0 then
      { success := false,
        error := some (cs ("Test suite failed to run (compilation/syntax error)")),
        execution_mode := cs ("modal"), language := some language,
        stdout := some stdout, stderr := some stderr }
    else
      { success := rc == 0,
        tests_run := run, tests_passed := p, tests_failed := f,
        execution_time := some el, stdout := some stdout, stderr := some stderr,
        exit_code := some rc,
        execution_mode := cs ("modal"), language := some language }

/-- `run_javascript_tests` (javascript_runner.py lines 133-318) with its
subprocess count.  A nonzero npm-install exit status aborts before the test
step; the `TimeoutExpired` handler covers both steps and records 300.0
seconds. -/
def run_javascript_tests (code tests : List Char) (module_name language : List Char)
    (scaffoldErr : Option (List Char))
    (installOutcome testOutcome : ProcOutcome) : TestRecord × Nat :=
  match validate_javascript_tests tests with
  | (false, msg) =>
    ({ success := false, error := some (cs ("Test validation failed: ") ++ msg),
       execution_mode := cs ("modal"), language := some language }, 0)
  | (true, _) =>
    match scaffoldErr with
    | some e =>
      ({ success := false, error := some (cs ("Project setup failed: ") ++ e),
         execution_mode := cs ("modal"), language := some language }, 0)
    | none =>
      match installOutcome with
      | .timedOut emsg =>
        ({ success := false,
           error := some (cs ("Test execution timeout: ") ++ emsg),
           execution_time := some 300,
           execution_mode := cs ("modal"), language := some language }, 1)
      | .notFound =>
        ({ success := false, error := some (cs ("Node.js/npm not found in container")),
           execution_mode := cs ("modal"), language := some language }, 1)
      | .completed _ ierr irc _ =>
        if !(irc == 0) then
          ({ success := false, error := some (cs ("npm install failed: ") ++ ierr),
             execution_mode := cs ("modal"), language := some language }, 1)
        else
          match testOutcome with
          | .timedOut emsg =>
            ({ success := false,
               error := some (cs ("Test execution timeout: ") ++ emsg),
               execution_time := some 300,
               execution_mode := cs ("modal"), language := some language }, 2)
          | .notFound =>
            ({ success := false,
               error := some (cs ("Node.js/npm not found in container")),
               execution_mode := cs ("modal"), language := some language }, 2)
          | .completed out err rc el =>
            (parseJestOutput (out.take 10000) (err.take 10000) rc el language, 2)

/-- `_run_python_tests_locally` (validator.py lines 94-188) with its
subprocess count.  No structural validation; install only when requirements
exist, exceptions swallowed; the occurrence counts use `" PASSED"` etc.
without a trailing newline; stdout/stderr are not truncated. -/
def run_python_tests_locally (code tests : List Char) (requirements : List (List Char))
    (module_name : List Char) (installOutcome testOutcome : ProcOutcome) :
    TestRecord × Nat :=
  let installProcs := if requirements.isEmpty then 0 else 1
  match testOutcome with
  | .timedOut _ =>
    ({ success := false, error := some (cs ("Test execution timeout (>2 minutes)")),
       execution_time := some 120, execution_mode := cs ("local") },
     installProcs + 1)
  | .notFound =>
    ({ success := false,
       error := some (cs ("pytest not found. Install with: pip install pytest")),
       execution_mode := cs ("local") }, installProcs + 1)
  | .completed out err rc el =>
    let p := countSub (cs (" PASSED")) out
    let f := countSub (cs (" FAILED")) out
    let e := countSub (cs (" ERROR")) out
    ({ success := rc == 0,
       tests_run := ((p + f + e : Nat) : Int), tests_passed := (p : Int),
       tests_failed := (f : Int), tests_errors := some (e : Int),
       execution_time := some el, stdout := some out, stderr := some err,
       exit_code := some rc, execution_mode := cs ("local") },
     installProcs + 1)

/-- `_run_java_tests_locally` (validator.py lines 191-273) with its
subprocess count: compile with `javac`, then run `java <Class>Test`; the
result of the run step is summarised as a single synthetic test decided by
the exit code.  The two exception handlers cover both steps. -/
def run_java_tests_locally (code tests : List Char) (module_name : List Char)
    (compileOutcome runOutcome : ProcOutcome) : TestRecord × Nat :=
  match compileOutcome with
  | .notFound =>
    ({ success := false,
       error := some (cs ("Java compiler (javac) not found. Install JDK.")),
       execution_mode := cs ("local") }, 1)
  | .timedOut _ =>
    ({ success := false, error := some (cs ("Java test execution timeout")),
       execution_mode := cs ("local") }, 1)
  | .completed _ cerr crc _ =>
    if !(crc == 0) then
      ({ success := false, error := some (cs ("Compilation failed: ") ++ cerr),
         execution_mode := cs ("local") }, 1)
    else
      match runOutcome with
      | .notFound =>
        ({ success := false,
           error := some (cs ("Java compiler (javac) not found. Install JDK.")),
           execution_mode := cs ("local") }, 2)
      | .timedOut _ =>
        ({ success := false, error := some (cs ("Java test execution timeout")),
           execution_mode := cs ("local") }, 2)
      | .completed rout rerr rrc rel =>
        ({ success := rrc == 0,
           tests_run := 1,
           tests_passed := if rrc == 0 then 1 else 0,
           tests_failed := if rrc == 0 then 0 else 1,
           execution_time := some rel, stdout := some rout, stderr := some rerr,
           exit_code := some rrc, execution_mode := cs ("local") }, 2)

/-- `_run_js_tests_locally` (validator.py lines 276-346) with its subprocess
count: a single `node <test file>` run summarised as one synthetic test
decided by the exit code. -/
def run_js_tests_locally (code tests : List Char) (module_name language : List Char)
    (runOutcome : ProcOutcome) : TestRecord × Nat :=
  match runOutcome with
  | .notFound =>
    ({ success := false, error := some (cs ("Node.js not found. Install Node.js.")),
       execution_mode := cs ("local") }, 1)
  | .timedOut _ =>
    ({ success := false, error := some (cs ("JavaScript test execution timeout")),
       execution_mode := cs ("local") }, 1)
  | .completed rout rerr rrc rel =>
    ({ success := rrc == 0,
       tests_run := 1,
       tests_passed := if rrc == 0 then 1 else 0,
       tests_failed := if rrc == 0 then 0 else 1,
       execution_time := some rel, stdout := some rout, stderr := some rerr,
       exit_code := some rrc, execution_mode := cs ("local") }, 1)

/-- Subprocess outcomes available to one local validation call, one slot per
potential `subprocess.run` site. -/
structure LocalEnv where
  pipOutcome : ProcOutcome
  pytestOutcome : ProcOutcome
  javacOutcome : ProcOutcome
  javaOutcome : ProcOutcome
  nodeOutcome : ProcOutcome
deriving Repr, DecidableEq

/-- `run_tests_locally` (validator.py lines 58-91): supported-language check,
then dispatch to the per-language local executor. -/
def run_tests_locally (code tests : List Char) (requirements : List (List Char))
    (module_name language : List Char) (env : LocalEnv) : TestRecord × Nat :=
  if !(language == cs ("python") || language == cs ("java")
      || language == cs ("javascript") || language == cs ("typescript")) then
    ({ success := false,
       error := some (cs ("Unsupported language: ") ++ language
         ++ cs (". Supported languages: python, java, javascript, typescript")),
       execution_mode := cs ("unsupported") }, 0)
  else if language == cs ("python") then
    run_python_tests_locally code tests requirements module_name
      env.pipOutcome env.pytestOutcome
  else if language == cs ("java") then
    run_java_tests_locally code tests module_name env.javacOutcome env.javaOutcome
  else
    run_js_tests_locally code tests module_name language env.nodeOutcome

/-- The final path component, as `pathlib` computes `Path(p).name`. -/
def pathName (p : List Char) : List Char :=
  ((p.reverse.takeWhile (fun c => !(c = '/'))) : List Char).reverse

/-- Index (from the left) of the last occurrence of `c`, if any. -/
def lastIdxOf (c : Char) (s : List Char) : Option Nat :=
  match (s.reverse.takeWhile (fun d => !(d = c))).length, s.length with
  | k, n => if k = n then none else some (n - k - 1)

/-- `Path(p).suffix`: the final extension, present only when the last dot of
the name is neither leading nor trailing. -/
def pathSuffix (p : List Char) : List Char :=
  let name := pathName p
  match lastIdxOf '.' name with
  | some i => if 0 < i && i < name.length - 1 then name.drop i else []
  | none => []

/-- `Path(p).stem`: the name with the final extension removed. -/
def pathStem (p : List Char) : List Char :=
  let name := pathName p
  match lastIdxOf '.' name with
  | some i => if 0 < i && i < name.length - 1 then name.take i else name
  | none => name

example : pathSuffix (cs ("src/app/Calc.JAVA")) = cs (".JAVA") := by decide
example : pathStem (cs ("src/app/legacy_db.py")) = cs ("legacy_db") := by decide

/-- Extension table of `_detect_language` (validator.py lines 32-40), applied
to the lower-cased suffix. -/
def extensionMap (ext : List Char) : Option (List Char) :=
  if ext == cs (".py") || ext == cs (".pyw") || ext == cs (".pyx") then some (cs ("python"))
  else if ext == cs (".java") then some (cs ("java"))
  else if ext == cs (".js") || ext == cs (".jsx") || ext == cs (".mjs")
      || ext == cs (".cjs") then some (cs ("javascript"))
  else if ext == cs (".ts") || ext == cs (".tsx") then some (cs ("typescript"))
  else none

/-- `_detect_language` (validator.py lines 28-55): extension lookup when a
non-empty `file_path` is given, else content heuristics, else `python`.  An
empty path is falsy in Python, so it skips the extension branch. -/
def detect_language (file_path : Option (List Char)) (code : List Char) : List Char :=
  let byExt : Option (List Char) :=
    match file_path with
    | none => none
    | some p =>
      if p.isEmpty then none
      else extensionMap ((pathSuffix p).map Char.toLower)
  match byExt with
  | some l => l
  | none =>
    if code.isEmpty then cs ("python")
    else if containsSub (cs ("public class")) code
        || containsSub (cs ("import java.")) code then cs ("java")
    else if containsSub (cs ("def ")) code
        && (containsSub (cs ("import ")) code || containsSub (cs ("from ")) code) then
      cs ("python")
    else if containsSub (cs ("function ")) code || containsSub (cs ("const ")) code
        || containsSub (cs ("let ")) code then cs ("javascript")
    else if containsSub (cs ("interface ")) code || containsSub (cs ("type ")) code then
      cs ("typescript")
    else cs ("python")

example : detect_language (some (cs ("Calc.java"))) [] = cs ("java") := by decide
example : detect_language none (cs ("import os\ndef f(): pass\n")) = cs ("python") := by
  decide

/-- Python `line.split()`: maximal runs of non-whitespace characters. -/
def splitWsWords (s : List Char) : List (List Char) :=
  let p := s.foldr
    (fun c q =>
      if isWsChar c then
        if q.1.isEmpty then q else ([], q.1 :: q.2)
      else (c :: q.1, q.2))
    (([] : List Char), ([] : List (List Char)))
  if p.1.isEmpty then p.2 else p.1 :: p.2

example : splitWsWords (cs ("from  sqlalchemy import x")) =
    [cs ("from"), cs ("sqlalchemy"), cs ("import"), cs ("x")] := by decide

/-- The Python import-to-package table of `_extract_requirements`
(validator.py lines 606-619); every entry maps an import name to itself. -/
def pyImportMods : List (List Char) :=
  [cs ("sqlalchemy"), cs ("pymysql"), cs ("requests"), cs ("flask"), cs ("django"),
   cs ("numpy"), cs ("pandas"), cs ("fastapi"), cs ("pydantic"), cs ("aiohttp"),
   cs ("httpx"), cs ("pytest")]

/-- The module a stripped source line imports, per the scan of
`_extract_requirements`: lines starting `import ` or `from ` with at least
two whitespace-separated parts contribute `parts[1].split('.')[0]`. -/
def lineModule (line : List Char) : Option (List Char) :=
  let l := stripWs line
  if (cs ("import ")).isPrefixOf l || (cs ("from ")).isPrefixOf l then
    match (splitWsWords l).get? 1 with
    | some second => some (second.takeWhile (fun c => !(c = '.')))
    | none => none
  else none

/-- Single-quote and double-quote characters, used when scanning for quoted
npm package names. -/
def quoteChar1 : Char := Char.ofNat 39

/-- Double-quote character. -/
def quoteChar2 : Char := Char.ofNat 34

/-- The npm package table of `_extract_requirements` (validator.py lines
639-646). -/
def jsPkgs : List (List Char) :=
  [cs ("express"), cs ("axios"), cs ("lodash"), cs ("moment"), cs ("react"),
   cs ("jest")]

/-- `_extract_requirements` (validator.py lines 591-655). -/
def extract_requirements (code : List Char) (language : List Char) :
    List (List Char) :=
  if language == cs ("python") then
    (splitLines code).foldl
      (fun acc line =>
        match lineModule line with
        | some m =>
          if pyImportMods.contains m && !acc.contains m then acc ++ [m] else acc
        | none => acc)
      []
  else if language == cs ("java") then []
  else if language == cs ("javascript") || language == cs ("typescript") then
    (splitLines code).foldl
      (fun acc line =>
        let l := stripWs line
        jsPkgs.foldl
          (fun acc2 pkg =>
            if (containsSub (quoteChar1 :: (pkg ++ [quoteChar1])) l
                || containsSub (quoteChar2 :: (pkg ++ [quoteChar2])) l)
                && !acc2.contains pkg then
              acc2 ++ [pkg]
            else acc2)
          acc)
      []
  else []

example : extract_requirements
    (cs ("import numpy as np\nfrom requests.adapters import x\nimport numpy\n"))
    (cs ("python")) = [cs ("numpy"), cs ("requests")] := by decide

/-- Arguments the Validator façade computes and hands to a backend call:
detected language, requirement list and module name. -/
structure CallArgs where
  language : List Char
  requirements : List (List Char)
  module_name : List Char
deriving Repr, DecidableEq

/-- The argument computation at the top of `validate_transformation`
(validator.py lines 449-465): detect the language from `file_path` or the
modernized code, extract requirements when none were passed, and take the
module name from the path stem (an empty or missing path is falsy and yields
`module`). -/
def facadeArgs (modernized_code : List Char) (requirements : Option (List (List Char)))
    (file_path : Option (List Char)) : CallArgs :=
  let language := detect_language file_path modernized_code
  { language := language,
    requirements := requirements.getD (extract_requirements modernized_code language),
    module_name :=
      match file_path with
      | some p => if p.isEmpty then cs ("module") else pathStem p
      | none => cs ("module") }

/-- A backend call as seen by the façade: either it returned a result record
or it raised (the `Except.error` text is the exception's message). -/
abbrev BackendRun := Except (List Char) TestRecord

/-- `run_tests_in_sandbox` (validator.py lines 361-384): when the Modal
executor is importable, try it and fall back to `run_tests_locally` on any
exception; otherwise go local directly.  The returned value is still an
`Except` because an exception raised by the local fallback itself (modelled
by `localRun = .error e`) escapes this function. -/
def run_tests_in_sandbox (executorAvailable : Bool)
    (modalRun localRun : BackendRun) : BackendRun :=
  if executorAvailable then
    match modalRun with
    | .ok r => .ok r
    | .error _ => localRun
  else localRun

/-- The catch-all failure record of `validate_transformation`
(validator.py lines 500-509). -/
def catchAllRecord (e : List Char) : TestRecord :=
  { success := false, error := some e,
    tests_run := 0, tests_passed := 0, tests_failed := 0,
    execution_mode := cs ("failed") }

/-- `ModalSandboxValidator.validate_transformation` (validator.py lines
428-509).  `preferModal`/`modalAvailable` are `self.prefer_modal` and
`MODAL_AVAILABLE`; `modalRun`/`localRun` are the dynamic behaviours of
`execute_in_modal` and `run_tests_locally`, applied to the computed
`CallArgs` (run_tests_locally is reached both inside `run_tests_in_sandbox`
and in the fallback section, with the same deterministic behaviour).  On the
Modal path the façade overwrites `execution_mode` with `'modal'` before
returning (line 479). -/
def validate_transformation (preferModal modalAvailable executorAvailable : Bool)
    (modalRun localRun : CallArgs → BackendRun)
    (original_code modernized_code tests : List Char)
    (requirements : Option (List (List Char)))
    (file_path : Option (List Char)) : TestRecord :=
  let a := facadeArgs modernized_code requirements file_path
  if preferModal && modalAvailable then
    match run_tests_in_sandbox executorAvailable (modalRun a) (localRun a) with
    | .ok r => { r with execution_mode := cs ("modal") }
    | .error _ =>
      match localRun a with
      | .ok r => r
      | .error e => catchAllRecord e
  else
    match localRun a with
    | .ok r => r
    | .error e => catchAllRecord e

/-- `validate_transformation` wired to the concrete local backend (Modal
unavailable): the façade calls `run_tests_locally` on the computed arguments
with the modernized code under test. -/
def validate_transformation_local (original_code modernized_code tests : List Char)
    (requirements : Option (List (List Char))) (file_path : Option (List Char))
    (env : LocalEnv) : TestRecord :=
  validate_transformation false false false
    (fun _ => .error [])
    (fun a => .ok (run_tests_locally modernized_code tests a.requirements
      a.module_name a.language env).1)
    original_code modernized_code tests requirements file_path

/-- Number of subprocess invocations consumed by
`validate_transformation_local` on the same inputs. -/
def validate_transformation_local_procs (original_code modernized_code tests : List Char)
    (requirements : Option (List (List Char))) (file_path : Option (List Char))
    (env : LocalEnv) : Nat :=
  (run_tests_locally modernized_code tests
    (facadeArgs modernized_code requirements file_path).requirements
    (facadeArgs modernized_code requirements file_path).module_name
    (facadeArgs modernized_code requirements file_path).language env).2

/-- One batch element (`transformations` entry of `validate_batch`):
`file_path` defaults to the empty string, `requirements` to `[]`. -/
structure TransformItem where
  file_path : List Char
  modernized_code : List Char
  tests : List Char
  requirements : List (List Char)
deriving Repr, DecidableEq

/-- Per-item step of the Modal branch of `validate_batch` (validator.py
lines 533-555): on success the item's path and the mode `'modal'` are stamped
onto the record; an exception becomes a per-item `modal_failed` record. -/
def batch_item_modal (sandboxRun : TransformItem → BackendRun)
    (t : TransformItem) : TestRecord :=
  match sandboxRun t with
  | .ok r => { r with file_path := some t.file_path, execution_mode := cs ("modal") }
  | .error e =>
    { success := false, error := some e,
      execution_mode := cs ("modal_failed"), file_path := some t.file_path }

/-- Per-item step of the local branch of `validate_batch` (validator.py
lines 565-586). -/
def batch_item_local (localRun : TransformItem → BackendRun)
    (t : TransformItem) : TestRecord :=
  match localRun t with
  | .ok r => { r with file_path := some t.file_path }
  | .error e =>
    { success := false, error := some e,
      execution_mode := cs ("local_failed"), file_path := some t.file_path }

/-- `ModalSandboxValidator.validate_batch` (validator.py lines 511-589): a
sequential loop appending one record per item, with a per-item exception
handler on both branches. -/
def validate_batch (preferModal modalAvailable : Bool)
    (sandboxRun localRun : TransformItem → BackendRun)
    (items : List TransformItem) : List TestRecord :=
  if preferModal && modalAvailable then
    items.map (batch_item_modal sandboxRun)
  else
    items.map (batch_item_local localRun)

/-- Decimal digit character for `n % 10`. -/
def digitChar (n : Nat) : Char := Char.ofNat (48 + n % 10)

/-- Decimal rendering, most significant digit first; fuel-driven for kernel
reducibility, always called with fuel equal to the number itself, which
bounds the digit count because `n / 10 < n` for positive `n`. -/
def natDigitsAux : Nat → Nat → List Char → List Char
  | 0, n, acc => digitChar n :: acc
  | fuel + 1, n, acc =>
    if n < 10 then digitChar n :: acc
    else natDigitsAux fuel (n / 10) (digitChar n :: acc)

/-- Decimal rendering of a natural number, as Python's `str(i)`. -/
def natDigits (n : Nat) : List Char := natDigitsAux n n []

example : natDigits 120 = cs ("120") := by decide
example : natDigits 0 = cs ("0") := by decide

/-- One entry of the `test_cases` list handed to the behavioural-equivalence
comparison; only its optional `description` is consulted. -/
structure EqCase where
  description : Option (List Char)
deriving Repr, DecidableEq

/-- The block `_generate_equivalence_test` appends for case `i`
(validator.py lines 711-716). -/
def eqCaseBlock (i : Nat) (c : EqCase) : List Char :=
  cs ("\ndef test_equivalence_") ++ natDigits i
    ++ cs ("():\n    \"\"\"Test case ") ++ natDigits i ++ cs (": ")
    ++ c.description.getD (cs ("equivalence test"))
    ++ cs ("\"\"\"\n    # Test implementation would go here\n    assert True\n")

/-- `_generate_equivalence_test` (validator.py lines 706-718): a pytest
header line followed by one trivial block per test case. -/
def generate_equivalence_test (test_cases : List EqCase) : List Char :=
  cs ("import pytest\n\n")
    ++ (test_cases.enum.map (fun p => eqCaseBlock p.1 p.2)).join

/-- Result of `test_behavioral_equivalence`.  `equivalence_score` is kept as
the exact rational the comparison computes; the `round(score, 3)` applied to
the returned dictionary entry is the identity on the values at issue (0 and
1) and is not part of the embedding. -/
structure EquivResult where
  behavioral_equivalence : Bool
  equivalence_score : Rat
  original_results : TestRecord
  modernized_results : TestRecord
deriving Repr, DecidableEq

/-- `ModalSandboxValidator.test_behavioral_equivalence` (validator.py lines
657-704).  `validate` is the behaviour of `validate_transformation` on
`(original_code, code_under_test, tests)`; the source calls it once per code
version with the same generated test, compares the two `tests_passed` counts,
and declares equivalence at a score of at least 0.95. -/
def test_behavioral_equivalence (validate : List Char → List Char → List Char → TestRecord)
    (original_code modernized_code : List Char)
    (test_cases : List EqCase) : EquivResult :=
  let equivalence_test := generate_equivalence_test test_cases
  let original_results := validate original_code original_code equivalence_test
  let modernized_results := validate original_code modernized_code equivalence_test
  let score : Rat :=
    if original_results.success && modernized_results.success then
      if original_results.tests_passed == modernized_results.tests_passed then 1
      else
        (modernized_results.tests_passed : Rat)
          / ((max original_results.tests_passed 1 : Int) : Rat)
    else 0
  { behavioral_equivalence := decide ((95 : Rat) / 100 ≤ score),
    equivalence_score := score,
    original_results := original_results,
    modernized_results := modernized_results }

/-- Concrete pytest output for the C1 counterexample: no summary line, one
passed line and one skipped line. -/
def c1Stdout : List Char := cs ("test_a SKIPPED\ntest_b PASSED\n")

/-- The record the Python runner produces on `c1Stdout`. -/
def c1Record : TestRecord :=
  (run_python_tests (cs ("def f(): pass\n")) (cs ("import m\ndef test_a(): pass\n"))
    [] (cs ("m")) none (.completed [] [] 0 0) (.completed c1Stdout [] 0 1)).1

/-- C1 (counterexample): a completed Python test run parsed by the fallback
occurrence count carries no error message, yet its `tests_run` (1) differs
from `tests_passed + tests_failed + tests_errored + tests_skipped` (2),
because the fallback sums only passed, failed and errors while still
reporting the skipped count. -/
theorem claim_C1_counterexample :
    c1Record.error = none ∧
    ¬(c1Record.tests_run = c1Record.tests_passed + c1Record.tests_failed
        + c1Record.tests_errors.getD 0 + c1Record.tests_skipped.getD 0) := by
  decide

/-- C1 (amended): the count identity that actually holds per parser.  For the
Python summary-line parse, `tests_run` equals passed + failed + errored +
skipped.  For the Python fallback occurrence count, `tests_run` equals
passed + failed + errored, excluding skipped.  For the Java Surefire parse,
`tests_run` equals passed + failed + skipped, `tests_failed` already
containing the errored count.  For the Jest parse, when the `Tests:` line
yields a positive total but no passed and no failed component, the fixed-up
counters satisfy `tests_run = passed + failed + skipped` (with an explicit
passed or failed component the total is an independent capture and can
exceed the sum, e.g. for todo tests). -/
theorem claim_C1_amended
    (spy sjv sjverr sjs : List Char) (rc el : Int) (x y z w : Nat)
    (run p f sk : Int)
    (hmk : (containsSub (cs ("BUILD FAILURE")) sjv
        || containsSub (cs ("COMPILATION ERROR")) sjv
        || containsSub (cs ("BUILD FAILURE")) sjverr) = false)
    (hsf : findSurefire sjv = some (x, y, z, w))
    (hjp : jestParsed sjs = (run, p, f, sk))
    (hp : p = 0) (hf : f = 0) (hrun : 0 < run) :
    ((pySummaryCounts spy).run
        = (pySummaryCounts spy).passed + (pySummaryCounts spy).failed
          + (pySummaryCounts spy).errors + (pySummaryCounts spy).skipped)
    ∧ ((pyFallbackCounts spy).run
        = (pyFallbackCounts spy).passed + (pyFallbackCounts spy).failed
          + (pyFallbackCounts spy).errors)
    ∧ ((parseJavaOutput sjv sjverr rc el).tests_run
        = (parseJavaOutput sjv sjverr rc el).tests_passed
          + (parseJavaOutput sjv sjverr rc el).tests_failed
          + ((parseJavaOutput sjv sjverr rc el).tests_skipped.getD 0))
    ∧ ((jestCounts sjs).1
        = (jestCounts sjs).2.1 + (jestCounts sjs).2.2.1 + (jestCounts sjs).2.2.2) := by
  refine ⟨?_, ?_, ?_, ?_⟩
  · unfold pySummaryCounts
    cases extractSummary spy <;> simp
  · unfold pyFallbackCounts
    simp
  · unfold parseJavaOutput
    rw [hmk, hsf]
    simp only [Bool.false_eq_true, if_false]
    simp only [Option.getD_some]
    omega
  · unfold jestCounts
    rw [hjp]
    subst hp hf
    have hcond : ((run > 0 : Bool) && ((0 : Int) == 0) && ((0 : Int) == 0)) = true := by
      simp [hrun]
    dsimp only
    rw [hcond]
    simp only [if_true]
    omega

/-- Pytest output for the C1 witness. -/
def c1wPyOut : List Char := cs ("== 2 passed, 1 skipped in 0.11s ==")

/-- Maven output for the C1 witness. -/
def c1wJavaOut : List Char := cs ("[INFO] Tests run: 4, Failures: 1, Errors: 1, Skipped: 1")

/-- Jest output for the C1 witness. -/
def c1wJestOut : List Char := cs ("Tests: 2 skipped, 3 total\n")

/-- Witness for C1 (amended) at concrete outputs of all four parsers. -/
theorem claim_C1_witness :
    ((pySummaryCounts c1wPyOut).run
        = (pySummaryCounts c1wPyOut).passed + (pySummaryCounts c1wPyOut).failed
          + (pySummaryCounts c1wPyOut).errors + (pySummaryCounts c1wPyOut).skipped)
    ∧ ((pyFallbackCounts c1wPyOut).run
        = (pyFallbackCounts c1wPyOut).passed + (pyFallbackCounts c1wPyOut).failed
          + (pyFallbackCounts c1wPyOut).errors)
    ∧ ((parseJavaOutput c1wJavaOut [] 0 1).tests_run
        = (parseJavaOutput c1wJavaOut [] 0 1).tests_passed
          + (parseJavaOutput c1wJavaOut [] 0 1).tests_failed
          + ((parseJavaOutput c1wJavaOut [] 0 1).tests_skipped.getD 0))
    ∧ ((jestCounts c1wJestOut).1
        = (jestCounts c1wJestOut).2.1 + (jestCounts c1wJestOut).2.2.1
          + (jestCounts c1wJestOut).2.2.2) :=
  claim_C1_amended c1wPyOut c1wJavaOut [] c1wJestOut 0 1 4 1 1 1 3 0 0 2
    (by decide) (by decide) (by decide) rfl rfl (by decide)

/-- C2: the façade is the error boundary.  For every preference/availability
configuration and every behaviour of the two backends (including raising,
modelled by `Except.error`), `validate_transformation` returns one of three
records: a Modal-path record re-stamped with mode `'modal'`, the local
backend's record unchanged, or — when the local backend itself raised — the
catch-all record, which has `success = false`, mode `'failed'` and a
populated error message.  In particular no exception escapes. -/
theorem claim_C2 (preferModal modalAvailable executorAvailable : Bool)
    (modalRun localRun : CallArgs → BackendRun)
    (original_code modernized_code tests : List Char)
    (requirements : Option (List (List Char))) (file_path : Option (List Char)) :
    (∃ m, run_tests_in_sandbox executorAvailable
          (modalRun (facadeArgs modernized_code requirements file_path))
          (localRun (facadeArgs modernized_code requirements file_path)) = .ok m
        ∧ validate_transformation preferModal modalAvailable executorAvailable
            modalRun localRun original_code modernized_code tests requirements file_path
          = { m with execution_mode := cs ("modal") })
    ∨ (∃ l, localRun (facadeArgs modernized_code requirements file_path) = .ok l
        ∧ validate_transformation preferModal modalAvailable executorAvailable
            modalRun localRun original_code modernized_code tests requirements file_path
          = l)
    ∨ (∃ e, localRun (facadeArgs modernized_code requirements file_path) = .error e
        ∧ validate_transformation preferModal modalAvailable executorAvailable
            modalRun localRun original_code modernized_code tests requirements file_path
          = catchAllRecord e
        ∧ (catchAllRecord e).success = false
        ∧ (catchAllRecord e).execution_mode = cs ("failed")
        ∧ (catchAllRecord e).error = some e) := by
  by_cases hc : (preferModal && modalAvailable) = true
  · by_cases hea : executorAvailable = true
    · cases hmr : modalRun (facadeArgs modernized_code requirements file_path) with
      | ok m =>
        refine Or.inl ⟨m, ?_, ?_⟩
        · rw [hea]; simp [run_tests_in_sandbox]
        · unfold validate_transformation
          rw [hc, hea]
          simp [run_tests_in_sandbox, hmr]
      | error em =>
        cases hl : localRun (facadeArgs modernized_code requirements file_path) with
        | ok l =>
          refine Or.inl ⟨l, ?_, ?_⟩
          · rw [hea]; simp [run_tests_in_sandbox]
          · unfold validate_transformation
            rw [hc, hea]
            simp [run_tests_in_sandbox, hmr, hl]
        | error e =>
          refine Or.inr (Or.inr ⟨e, rfl, ?_, rfl, rfl, rfl⟩)
          unfold validate_transformation
          rw [hc, hea]
          simp [run_tests_in_sandbox, hmr, hl]
    · have hea2 : executorAvailable = false := by
        cases h2 : executorAvailable
        · rfl
        · exact absurd h2 hea
      cases hl : localRun (facadeArgs modernized_code requirements file_path) with
      | ok l =>
        refine Or.inl ⟨l, ?_, ?_⟩
        · rw [hea2]; simp [run_tests_in_sandbox]
        · unfold validate_transformation
          rw [hc, hea2]
          simp [run_tests_in_sandbox, hl]
      | error e =>
        refine Or.inr (Or.inr ⟨e, rfl, ?_, rfl, rfl, rfl⟩)
        unfold validate_transformation
        rw [hc, hea2]
        simp [run_tests_in_sandbox, hl]
  · have hc2 : (preferModal && modalAvailable) = false := by
      cases h2 : preferModal && modalAvailable
      · rfl
      · exact absurd h2 hc
    cases hl : localRun (facadeArgs modernized_code requirements file_path) with
    | ok l =>
      refine Or.inr (Or.inl ⟨l, rfl, ?_⟩)
      unfold validate_transformation
      rw [hc2]
      simp [hl]
    | error e =>
      refine Or.inr (Or.inr ⟨e, rfl, ?_, rfl, rfl, rfl⟩)
      unfold validate_transformation
      rw [hc2]
      simp [hl]

/-- A concrete successful local run for the C3 counterexample: the local
Python executor on a passing pytest output, whose record carries
`execution_mode = 'local'`. -/
def c3LocalRecord : TestRecord :=
  (run_python_tests_locally (cs ("def f(): pass\n"))
    (cs ("import sys\ndef test_f(): assert True\n")) [] (cs ("m"))
    (.completed [] [] 0 0) (.completed (cs ("test_f PASSED")) [] 0 1)).1

/-- C3 (counterexample): the remote backend raises, the local backend
succeeds with a record whose mode is `'local'`, yet the record returned by
`validate_transformation` reports `execution_mode = 'modal'`, because the
façade overwrites the field on the Modal-preferred path (validator.py line
479) after `run_tests_in_sandbox` already swallowed the remote failure. -/
theorem claim_C3_counterexample :
    c3LocalRecord.execution_mode = cs ("local")
    ∧ c3LocalRecord.success = true
    ∧ (validate_transformation true true true
        (fun _ => .error (cs ("modal boom"))) (fun _ => .ok c3LocalRecord)
        (cs ("c")) (cs ("c")) (cs ("t")) (some []) none).execution_mode
      = cs ("modal") := by
  decide

/-- C3 (amended): when the remote backend raises and the local backend
returns a record, no exception escapes: `run_tests_in_sandbox` resolves to
the local record for that call (mode `'local'` intact at that level), the
façade returns the same record with every test count unchanged but with
`execution_mode` overwritten to `'modal'`, and the fallback is confined to
the call — a later call whose remote backend succeeds returns the remote
record, so the preference is not downgraded. -/
theorem claim_C3_amended
    (e : List Char) (r : TestRecord)
    (modalRun localRun : CallArgs → BackendRun)
    (original_code modernized_code tests : List Char)
    (requirements : Option (List (List Char))) (file_path : Option (List Char))
    (hm : ∀ a, modalRun a = .error e)
    (hl : ∀ a, localRun a = .ok r) :
    run_tests_in_sandbox true (.error e) (.ok r) = .ok r
    ∧ validate_transformation true true true modalRun localRun
        original_code modernized_code tests requirements file_path
      = { r with execution_mode := cs ("modal") }
    ∧ (∀ (modalRun2 : CallArgs → BackendRun) (m : TestRecord),
        (∀ a, modalRun2 a = .ok m) →
        validate_transformation true true true modalRun2 localRun
          original_code modernized_code tests requirements file_path
        = { m with execution_mode := cs ("modal") }) := by
  refine ⟨rfl, ?_, ?_⟩
  · unfold validate_transformation run_tests_in_sandbox
    simp [hm, hl]
  · intro modalRun2 m hm2
    unfold validate_transformation run_tests_in_sandbox
    simp [hm2, hl]

/-- Witness for C3 (amended) at concrete behaviours. -/
theorem claim_C3_witness :
    run_tests_in_sandbox true (.error (cs ("down"))) (.ok c3LocalRecord)
      = .ok c3LocalRecord
    ∧ validate_transformation true true true
        (fun _ => .error (cs ("down"))) (fun _ => .ok c3LocalRecord)
        (cs ("a")) (cs ("a")) (cs ("t")) (some []) none
      = { c3LocalRecord with execution_mode := cs ("modal") }
    ∧ (∀ (modalRun2 : CallArgs → BackendRun) (m : TestRecord),
        (∀ a, modalRun2 a = .ok m) →
        validate_transformation true true true modalRun2
          (fun _ => .ok c3LocalRecord)
          (cs ("a")) (cs ("a")) (cs ("t")) (some []) none
        = { m with execution_mode := cs ("modal") }) :=
  claim_C3_amended (cs ("down")) c3LocalRecord
    (fun _ => .error (cs ("down"))) (fun _ => .ok c3LocalRecord)
    (cs ("a")) (cs ("a")) (cs ("t")) (some []) none
    (fun _ => rfl) (fun _ => rfl)

/-- C4 (amended): with identical original and modernized code both
validation calls receive the same arguments and (the backend being a
function of its inputs) produce the same record `r`.  If `r` succeeded, the
comparison returns `equivalence_score = 1` and `behavioral_equivalence =
true` as claimed; if `r` failed, the score is `0` and equivalence is `false`.
For the empty test-case list in particular the generated equivalence test
contains no `def test_` function, so a Python run of it cannot pass the
runner's structural validation. -/
theorem claim_C4_amended
    (validate : List Char → List Char → List Char → TestRecord)
    (original_code : List Char) (test_cases : List EqCase) :
    ((validate original_code original_code
        (generate_equivalence_test test_cases)).success = true →
      (test_behavioral_equivalence validate original_code original_code
        test_cases).equivalence_score = 1
      ∧ (test_behavioral_equivalence validate original_code original_code
          test_cases).behavioral_equivalence = true)
    ∧ ((validate original_code original_code
        (generate_equivalence_test test_cases)).success = false →
      (test_behavioral_equivalence validate original_code original_code
        test_cases).equivalence_score = 0
      ∧ (test_behavioral_equivalence validate original_code original_code
          test_cases).behavioral_equivalence = false)
    ∧ containsSub (cs ("def test_")) (generate_equivalence_test []) = false := by
  refine ⟨?_, ?_, by decide⟩
  · intro hs
    unfold test_behavioral_equivalence
    constructor <;> simp [hs] <;> norm_num
  · intro hs
    unfold test_behavioral_equivalence
    constructor <;> simp [hs] <;> norm_num

/-- The record the local Python executor produces when the generated
equivalence test for the empty case list is run: pytest collects no tests
(the generated file has no test function), exits nonzero, and the output has
no per-test result lines, so the validation fails. -/
def c4FailRecord : TestRecord :=
  (run_python_tests_locally (cs ("def add(a, b): return a + b\n"))
    (generate_equivalence_test []) [] (cs ("m"))
    (.completed [] [] 0 0) (.completed (cs ("no tests ran in 0.01s")) [] 5 1)).1

/-- C4 (counterexample): identical original/modernized code with the empty
test-case list yields `equivalence_score = 0` and
`behavioral_equivalence = false`, not the claimed 1.0/true, because the
generated equivalence test contains no `def test_` function and its
validation run fails. -/
theorem claim_C4_counterexample :
    (test_behavioral_equivalence (fun _ _ _ => c4FailRecord)
      (cs ("def add(a, b): return a + b\n"))
      (cs ("def add(a, b): return a + b\n")) []).equivalence_score = 0
    ∧ (test_behavioral_equivalence (fun _ _ _ => c4FailRecord)
        (cs ("def add(a, b): return a + b\n"))
        (cs ("def add(a, b): return a + b\n")) []).behavioral_equivalence = false
    ∧ c4FailRecord.success = false
    ∧ containsSub (cs ("def test_")) (generate_equivalence_test []) = false := by
  have hs : c4FailRecord.success = false := by decide
  refine ⟨?_, ?_, hs, by decide⟩
  · unfold test_behavioral_equivalence
    simp [hs]
  · unfold test_behavioral_equivalence
    simp [hs] <;> norm_num

/-- A successful validation record for the C4 witness. -/
def c4OkRecord : TestRecord :=
  (run_python_tests_locally (cs ("def add(a, b): return a + b\n"))
    (cs ("import sys\ndef test_add(): assert True\n")) [] (cs ("m"))
    (.completed [] [] 0 0) (.completed (cs ("test_add PASSED")) [] 0 1)).1

/-- Witness for C4 (amended): with a succeeding shared validation run the
comparison returns score 1 and equivalence true. -/
theorem claim_C4_witness :
    (test_behavioral_equivalence (fun _ _ _ => c4OkRecord)
      (cs ("x")) (cs ("x")) []).equivalence_score = 1
    ∧ (test_behavioral_equivalence (fun _ _ _ => c4OkRecord)
        (cs ("x")) (cs ("x")) []).behavioral_equivalence = true :=
  (claim_C4_amended (fun _ _ _ => c4OkRecord) (cs ("x")) []).1 (by decide)

/-- C5: batch validation returns exactly one record per input item, in input
order: position `i` of the output is the per-item function applied to
position `i` of the input, so one item's outcome cannot influence another's.
A per-item backend exception (scaffold/run/parse failure raising) becomes a
per-item record with `success = false` carrying that item's path, on both
the local and the Modal branch. -/
theorem claim_C5 (preferModal modalAvailable : Bool)
    (sandboxRun localRun : TransformItem → BackendRun)
    (items : List TransformItem) :
    (validate_batch preferModal modalAvailable sandboxRun localRun items).length
      = items.length
    ∧ (∀ i : Nat,
        (validate_batch preferModal modalAvailable sandboxRun localRun items)[i]?
          = (items[i]?).map (fun t =>
              if preferModal && modalAvailable then batch_item_modal sandboxRun t
              else batch_item_local localRun t))
    ∧ (∀ (t : TransformItem) (e : List Char), localRun t = .error e →
        (batch_item_local localRun t).success = false
        ∧ (batch_item_local localRun t).file_path = some t.file_path
        ∧ (batch_item_local localRun t).error = some e)
    ∧ (∀ (t : TransformItem) (e : List Char), sandboxRun t = .error e →
        (batch_item_modal sandboxRun t).success = false
        ∧ (batch_item_modal sandboxRun t).file_path = some t.file_path) := by
  refine ⟨?_, ?_, ?_, ?_⟩
  · unfold validate_batch
    cases hc : preferModal && modalAvailable <;> simp
  · intro i
    unfold validate_batch
    cases hc : preferModal && modalAvailable <;> simp [List.getElem?_map]
  · intro t e h
    unfold batch_item_local
    rw [h]
    exact ⟨rfl, rfl, rfl⟩
  · intro t e h
    unfold batch_item_modal
    rw [h]
    exact ⟨rfl, rfl⟩

/-- A passing record used as the behaviour of the healthy batch item. -/
def c5OkRecord : TestRecord :=
  { success := true, tests_run := 1, tests_passed := 1,
    execution_mode := cs ("local") }

/-- First batch item for the C5 witness (validates fine). -/
def c5Item1 : TransformItem :=
  ⟨cs ("a.py"), cs ("def f(): pass\n"),
   cs ("import sys\ndef test_f(): assert True\n"), []⟩

/-- Second batch item for the C5 witness (its backend call raises). -/
def c5Item2 : TransformItem :=
  ⟨cs ("b.py"), cs ("def g(: pass\n"), cs ("broken"), []⟩

/-- Local-backend behaviour for the C5 witness: raises on the broken item. -/
def c5Local (t : TransformItem) : BackendRun :=
  if t.file_path = cs ("b.py") then .error (cs ("SyntaxError")) else .ok c5OkRecord

/-- Witness for C5 on a two-item batch whose second item raises. -/
theorem claim_C5_witness :
    (validate_batch false false (fun _ => .error (cs ("m"))) c5Local
        [c5Item1, c5Item2]).length = 2
    ∧ (validate_batch false false (fun _ => .error (cs ("m"))) c5Local
        [c5Item1, c5Item2])[1]?
      = some (batch_item_local c5Local c5Item2)
    ∧ (batch_item_local c5Local c5Item2).success = false
    ∧ (batch_item_local c5Local c5Item2).file_path = some (cs ("b.py"))
    ∧ (batch_item_local c5Local c5Item2).error = some (cs ("SyntaxError")) := by
  have h := claim_C5 false false (fun _ => .error (cs ("m"))) c5Local
    [c5Item1, c5Item2]
  have hi := h.2.1 1
  have hcase := h.2.2.1 c5Item2 (cs ("SyntaxError")) (by rfl)
  exact ⟨h.1, hi, hcase.1, hcase.2.1, hcase.2.2⟩

/-- C6: the Java result parser.  First, with no build-failure marker in the
output, a Surefire match `Tests run: X, Failures: Y, Errors: Z, Skipped: W`
yields `tests_failed = Y + Z`, `tests_passed = X - tests_failed - W` and
`tests_run = X`.  Second, a `BUILD FAILURE` or `COMPILATION ERROR` marker in
the stdout short-circuits to a failure record with all counts zero and a
populated error message, regardless of any Surefire line also present. -/
theorem claim_C6 :
    (∀ (stdout stderr : List Char) (rc el : Int) (x y z w : Nat),
      (containsSub (cs ("BUILD FAILURE")) stdout
        || containsSub (cs ("COMPILATION ERROR")) stdout
        || containsSub (cs ("BUILD FAILURE")) stderr) = false →
      findSurefire stdout = some (x, y, z, w) →
      (parseJavaOutput stdout stderr rc el).tests_failed = (y : Int) + (z : Int)
      ∧ (parseJavaOutput stdout stderr rc el).tests_passed
          = (x : Int) - (parseJavaOutput stdout stderr rc el).tests_failed - (w : Int)
      ∧ (parseJavaOutput stdout stderr rc el).tests_run = (x : Int))
    ∧ (∀ (stdout stderr : List Char) (rc el : Int),
      (containsSub (cs ("BUILD FAILURE")) stdout
        || containsSub (cs ("COMPILATION ERROR")) stdout) = true →
      (parseJavaOutput stdout stderr rc el).success = false
      ∧ (parseJavaOutput stdout stderr rc el).tests_run = 0
      ∧ (parseJavaOutput stdout stderr rc el).tests_passed = 0
      ∧ (parseJavaOutput stdout stderr rc el).tests_failed = 0
      ∧ (parseJavaOutput stdout stderr rc el).error.isSome = true) := by
  constructor
  · intro stdout stderr rc el x y z w hmk hsf
    unfold parseJavaOutput
    rw [hmk, hsf]
    simp only [Bool.false_eq_true, if_false]
    simp
  · intro stdout stderr rc el hmk
    have hcond : (containsSub (cs ("BUILD FAILURE")) stdout
        || containsSub (cs ("COMPILATION ERROR")) stdout
        || containsSub (cs ("BUILD FAILURE")) stderr) = true := by
      rw [Bool.or_eq_true] at hmk
      rcases hmk with h | h <;> simp [h]
    unfold parseJavaOutput
    rw [hcond]
    exact ⟨rfl, rfl, rfl, rfl, rfl⟩

/-- Maven output with a Surefire line for the C6 witness. -/
def c6Surefire : List Char :=
  cs ("[INFO] Tests run: 7, Failures: 2, Errors: 1, Skipped: 1\n[INFO] BUILD SUCCESS")

/-- Maven output with a build-failure marker for the C6 witness. -/
def c6Broken : List Char :=
  cs ("[ERROR] COMPILATION ERROR\nTests run: 7, Failures: 2, Errors: 1, Skipped: 1")

/-- Witness for C6 at concrete Maven outputs for both halves. -/
theorem claim_C6_witness :
    ((parseJavaOutput c6Surefire [] 1 3).tests_failed = 3
      ∧ (parseJavaOutput c6Surefire [] 1 3).tests_passed
          = 7 - (parseJavaOutput c6Surefire [] 1 3).tests_failed - 1
      ∧ (parseJavaOutput c6Surefire [] 1 3).tests_run = 7)
    ∧ ((parseJavaOutput c6Broken [] 1 3).success = false
      ∧ (parseJavaOutput c6Broken [] 1 3).tests_run = 0
      ∧ (parseJavaOutput c6Broken [] 1 3).tests_passed = 0
      ∧ (parseJavaOutput c6Broken [] 1 3).tests_failed = 0
      ∧ (parseJavaOutput c6Broken [] 1 3).error.isSome = true) :=
  ⟨claim_C6.1 c6Surefire [] 1 3 7 2 1 1 (by decide) (by decide),
   claim_C6.2 c6Broken [] 1 3 (by decide)⟩

/-- Jest test code passing the structural validation, for C7. -/
def c7JsTests : List Char :=
  cs ("const m = require('./m');\ndescribe('s', () => it('t', () => expect(m.f()).toBe(1)));")

/-- C7 (counterexample): a JavaScript test-step timeout is recorded with
`executionTimeSeconds = 300`, not the test step's configured 120-second
bound (javascript_runner.py line 223 stores 300.0 although the test
subprocess runs with `timeout=120`). -/
theorem claim_C7_counterexample :
    ((run_javascript_tests (cs ("const f = 1;")) c7JsTests (cs ("m"))
        (cs ("javascript")) none (.completed [] [] 0 1)
        (.timedOut (cs ("Command timed out after 120 seconds")))).1).execution_time
      = some 300
    ∧ ¬(((run_javascript_tests (cs ("const f = 1;")) c7JsTests (cs ("m"))
        (cs ("javascript")) none (.completed [] [] 0 1)
        (.timedOut (cs ("Command timed out after 120 seconds")))).1).execution_time
      = some 120) := by
  decide

/-- C7 (amended): a timed-out test step yields `success = false`, an error
message noting the timeout, zero counts and `executionTimeSeconds` equal to
the recorded bound — 120 for Python, 300 for Java, and 300 (not the claimed
120) for JavaScript/TypeScript, whose handler covers both the 180-second
install and the 120-second test step and stores 300.0. -/
theorem claim_C7_amended
    (pycode pytests : List Char) (reqs : List (List Char)) (mod : List Char)
    (emsg1 emsg2 emsg3 : List Char)
    (jvcode jvtests : List Char)
    (jscode jstests lang : List Char) (iout ierr : List Char) (iel : Int)
    (io : ProcOutcome)
    (hpv : validate_python_tests pytests none = (true, []))
    (hjv : validate_java_tests jvtests = (true, []))
    (hjs : validate_javascript_tests jstests = (true, [])) :
    (run_python_tests pycode pytests reqs mod none io (.timedOut emsg1)).1
      = { success := false,
          error := some (cs ("Test execution timeout (>2 minutes)")),
          execution_time := some 120, execution_mode := cs ("modal"),
          language := some (cs ("python")) }
    ∧ (run_java_tests jvcode jvtests mod none (.timedOut emsg2)).1
      = { success := false,
          error := some (cs ("Maven test execution timeout (>5 minutes)")),
          execution_time := some 300, execution_mode := cs ("modal"),
          language := some (cs ("java")) }
    ∧ (run_javascript_tests jscode jstests mod lang none
        (.completed iout ierr 0 iel) (.timedOut emsg3)).1
      = { success := false,
          error := some (cs ("Test execution timeout: ") ++ emsg3),
          execution_time := some 300, execution_mode := cs ("modal"),
          language := some lang } := by
  refine ⟨?_, ?_, ?_⟩
  · unfold run_python_tests
    rw [hpv]
  · unfold run_java_tests
    rw [hjv]
  · unfold run_javascript_tests
    rw [hjs]
    rfl

/-- Python test code passing the structural validation, for the C7 witness. -/
def c7PyTests : List Char := cs ("import m\ndef test_a(): assert m.f() == 1\n")

/-- Java test code passing the structural validation, for the C7 witness. -/
def c7JavaTests : List Char :=
  cs ("import org.junit.jupiter.api.Test;\nclass CalcTest { @Test void t() { } }")

/-- Witness for C7 (amended) at concrete inputs for all three runners. -/
theorem claim_C7_witness :
    (run_python_tests (cs ("def f(): return 1\n")) c7PyTests [] (cs ("m")) none
        (.completed [] [] 0 0) (.timedOut (cs ("t1")))).1
      = { success := false,
          error := some (cs ("Test execution timeout (>2 minutes)")),
          execution_time := some 120, execution_mode := cs ("modal"),
          language := some (cs ("python")) }
    ∧ (run_java_tests (cs ("class Calc { }")) c7JavaTests (cs ("m")) none
        (.timedOut (cs ("t2")))).1
      = { success := false,
          error := some (cs ("Maven test execution timeout (>5 minutes)")),
          execution_time := some 300, execution_mode := cs ("modal"),
          language := some (cs ("java")) }
    ∧ (run_javascript_tests (cs ("const f = 1;")) c7JsTests (cs ("m"))
        (cs ("typescript")) none (.completed [] [] 0 1) (.timedOut (cs ("t3")))).1
      = { success := false,
          error := some (cs ("Test execution timeout: ") ++ cs ("t3")),
          execution_time := some 300, execution_mode := cs ("modal"),
          language := some (cs ("typescript")) } :=
  claim_C7_amended (cs ("def f(): return 1\n")) c7PyTests [] (cs ("m"))
    (cs ("t1")) (cs ("t2")) (cs ("t3"))
    (cs ("class Calc { }")) c7JavaTests
    (cs ("const f = 1;")) c7JsTests (cs ("typescript")) [] [] 1
    (.completed [] [] 0 0)
    (by decide) (by decide) (by decide)

/-- Source code for the C8 counterexample. -/
def c8Code : List Char :=
  cs ("public class Calc { int add(int a, int b) { return a + b; } }")

/-- Java test code without an `@Test` annotation for the C8 counterexample. -/
def c8Tests : List Char :=
  cs ("import org.junit.jupiter.api.Assertions;\npublic class CalcTest { public static void main(String[] args) { } }")

/-- Local subprocess outcomes for the C8 counterexample: `javac` and `java`
both complete successfully. -/
def c8Env : LocalEnv :=
  ⟨.completed [] [] 0 0, .completed [] [] 0 0,
   .completed [] [] 0 1, .completed (cs ("ran")) [] 0 1, .completed [] [] 0 0⟩

/-- C8 (counterexample): through the validation entry point
`validate_transformation`, a Java request whose test code has no `@Test`
annotation is not rejected: the local backend compiles and runs it (two
subprocesses consumed) and, both child processes exiting 0, the returned
record even has `success = true` and `testsRun = 1` — not the claimed
structural rejection with `success = false`, `testsRun = 0` and an
`@Test`-naming error message at zero subprocess cost. -/
theorem claim_C8_counterexample :
    containsSub (cs ("@Test")) c8Tests = false
    ∧ (validate_transformation_local c8Code c8Code c8Tests none
        (some (cs ("Calc.java"))) c8Env).success = true
    ∧ (validate_transformation_local c8Code c8Code c8Tests none
        (some (cs ("Calc.java"))) c8Env).tests_run = 1
    ∧ (validate_transformation_local c8Code c8Code c8Tests none
        (some (cs ("Calc.java"))) c8Env).error = none
    ∧ validate_transformation_local_procs c8Code c8Code c8Tests none
        (some (cs ("Calc.java"))) c8Env = 2 := by
  decide

/-- C8 (amended): the structural pre-execution rejection exists in the
language runner modules, which the entry point does not call.  At that
level the property holds: `run_java_tests` on test code without `@Test`
(and `run_javascript_tests` on test code with a `describe(` block and an
imported module but no `expect(` call) returns `success = false`, zero counts and an
error message naming the missing marker, consuming no subprocess. -/
theorem claim_C8_amended
    (jvcode jvtests mod : List Char) (se : Option (List Char)) (mvn : ProcOutcome)
    (jscode jstests jmod lang : List Char) (se2 : Option (List Char))
    (inst tst : ProcOutcome)
    (hjv : containsSub (cs ("@Test")) jvtests = false)
    (hds : containsSub (cs ("describe(")) jstests = true)
    (himp : (containsSub (cs ("import")) jstests
        || containsSub (cs ("require")) jstests) = true)
    (hex : containsSub (cs ("expect(")) jstests = false) :
    (run_java_tests jvcode jvtests mod se mvn).1
      = { success := false,
          error := some (cs ("Test validation failed: No @Test annotations found (required for JUnit 5)")),
          execution_mode := cs ("modal"), language := some (cs ("java")) }
    ∧ (run_java_tests jvcode jvtests mod se mvn).2 = 0
    ∧ (run_javascript_tests jscode jstests jmod lang se2 inst tst).1
      = { success := false,
          error := some (cs ("Test validation failed: No expect() assertions found")),
          execution_mode := cs ("modal"), language := some lang }
    ∧ (run_javascript_tests jscode jstests jmod lang se2 inst tst).2 = 0 := by
  have hv1 : validate_java_tests jvtests
      = (false, cs ("No @Test annotations found (required for JUnit 5)")) := by
    unfold validate_java_tests
    simp [hjv]
  have hv2 : validate_javascript_tests jstests
      = (false, cs ("No expect() assertions found")) := by
    unfold validate_javascript_tests
    rw [Bool.or_eq_true] at himp
    rcases himp with h | h <;> simp [hds, hex, h]
  refine ⟨?_, ?_, ?_, ?_⟩
  · unfold run_java_tests
    rw [hv1]
    rfl
  · unfold run_java_tests
    rw [hv1]
  · unfold run_javascript_tests
    rw [hv2]
    rfl
  · unfold run_javascript_tests
    rw [hv2]

/-- Jest test code with a `describe(` block and an import but no `expect(`
call, for the C8 witness. -/
def c8JsTests : List Char :=
  cs ("const m = require('./m');\ndescribe('s', () => it('t', () => m.f()));")

/-- Witness for C8 (amended) at concrete marker-less test code. -/
theorem claim_C8_witness :
    (run_java_tests c8Code c8Tests (cs ("m")) none (.completed [] [] 0 1)).1
      = { success := false,
          error := some (cs ("Test validation failed: No @Test annotations found (required for JUnit 5)")),
          execution_mode := cs ("modal"), language := some (cs ("java")) }
    ∧ (run_java_tests c8Code c8Tests (cs ("m")) none (.completed [] [] 0 1)).2 = 0
    ∧ (run_javascript_tests (cs ("const f = 1;")) c8JsTests (cs ("m"))
        (cs ("javascript")) none (.completed [] [] 0 1) (.completed [] [] 0 1)).1
      = { success := false,
          error := some (cs ("Test validation failed: No expect() assertions found")),
          execution_mode := cs ("modal"), language := some (cs ("javascript")) }
    ∧ (run_javascript_tests (cs ("const f = 1;")) c8JsTests (cs ("m"))
        (cs ("javascript")) none (.completed [] [] 0 1) (.completed [] [] 0 1)).2
      = 0 :=
  claim_C8_amended c8Code c8Tests (cs ("m")) none (.completed [] [] 0 1)
    (cs ("const f = 1;")) c8JsTests (cs ("m")) (cs ("javascript")) none
    (.completed [] [] 0 1) (.completed [] [] 0 1)
    (by decide) (by decide) (by decide) (by decide)

/-- C9: install-failure policy.  For Python the pip-install outcome never
influences the result record (a nonzero exit status is only logged), the
test step still runs, and with nonempty requirements exactly two
subprocesses are consumed.  For JavaScript/TypeScript a nonzero npm-install
exit status is fatal: the runner returns `success = false` with zero counts
and an `npm install failed` message after a single subprocess, never
reaching the test step. -/
theorem claim_C9
    (pycode pytests mod : List Char) (reqs : List (List Char))
    (iout ierr : List Char) (irc iel : Int) (tst : ProcOutcome)
    (jscode jstests jmod lang : List Char)
    (i2out i2err : List Char) (i2rc i2el : Int) (tst2 : ProcOutcome)
    (hpv : validate_python_tests pytests none = (true, []))
    (hreq : reqs ≠ [])
    (hjsv : validate_javascript_tests jstests = (true, []))
    (hirc : ¬(i2rc = 0)) :
    ((run_python_tests pycode pytests reqs mod none
        (.completed iout ierr irc iel) tst).1
      = (run_python_tests pycode pytests reqs mod none
          (.completed iout ierr 0 iel) tst).1)
    ∧ (run_python_tests pycode pytests reqs mod none
        (.completed iout ierr irc iel) tst).2 = 2
    ∧ (run_javascript_tests jscode jstests jmod lang none
        (.completed i2out i2err i2rc i2el) tst2).1
      = { success := false,
          error := some (cs ("npm install failed: ") ++ i2err),
          execution_mode := cs ("modal"), language := some lang }
    ∧ (run_javascript_tests jscode jstests jmod lang none
        (.completed i2out i2err i2rc i2el) tst2).2 = 1 := by
  have hempty : reqs.isEmpty = false := by
    cases reqs with
    | nil => exact absurd rfl hreq
    | cons a l => rfl
  have hbeq : (i2rc == 0) = false := by
    simpa using hirc
  refine ⟨?_, ?_, ?_, ?_⟩
  · unfold run_python_tests
    rfl
  · unfold run_python_tests
    rw [hpv]
    cases tst <;> simp [hempty]
  · unfold run_javascript_tests
    rw [hjsv]
    simp only [hbeq, Bool.not_false, if_true]
  · unfold run_javascript_tests
    rw [hjsv]
    simp only [hbeq, Bool.not_false, if_true]

/-- pytest outcome used by the C9 witness. -/
def c9PyOut : ProcOutcome := .completed (cs ("test_a PASSED\n")) [] 0 2

/-- Witness for C9 at concrete inputs: a failed pip install (exit 1) leaves
the Python record identical to the successful-install run and still consumes
the test step, while a failed npm install (exit 1) aborts the JavaScript run
after one subprocess. -/
theorem claim_C9_witness :
    ((run_python_tests (cs ("def f(): return 1\n")) c7PyTests [cs ("requests")]
        (cs ("m")) none (.completed [] (cs ("pip boom")) 1 3) c9PyOut).1
      = (run_python_tests (cs ("def f(): return 1\n")) c7PyTests [cs ("requests")]
          (cs ("m")) none (.completed [] (cs ("pip boom")) 0 3) c9PyOut).1)
    ∧ (run_python_tests (cs ("def f(): return 1\n")) c7PyTests [cs ("requests")]
        (cs ("m")) none (.completed [] (cs ("pip boom")) 1 3) c9PyOut).2 = 2
    ∧ (run_javascript_tests (cs ("const f = 1;")) c7JsTests (cs ("m"))
        (cs ("javascript")) none (.completed [] (cs ("npm boom")) 1 4)
        (.completed [] [] 0 1)).1
      = { success := false,
          error := some (cs ("npm install failed: ") ++ cs ("npm boom")),
          execution_mode := cs ("modal"), language := some (cs ("javascript")) }
    ∧ (run_javascript_tests (cs ("const f = 1;")) c7JsTests (cs ("m"))
        (cs ("javascript")) none (.completed [] (cs ("npm boom")) 1 4)
        (.completed [] [] 0 1)).2 = 1 :=
  claim_C9 (cs ("def f(): return 1\n")) c7PyTests (cs ("m")) [cs ("requests")]
    [] (cs ("pip boom")) 1 3 c9PyOut
    (cs ("const f = 1;")) c7JsTests (cs ("m")) (cs ("javascript"))
    [] (cs ("npm boom")) 1 4 (.completed [] [] 0 1)
    (by decide) (by decide) (by decide) (by decide)

/-- C10 (counterexample): a Java input whose local-backend run completes with
no timeout and no missing tool — the compile step merely exits nonzero —
yields `tests_run = 0`, not the claimed 1, together with a compilation error
message. -/
theorem claim_C10_counterexample :
    ((run_java_tests_locally (cs ("class C")) (cs ("class CTest {}")) (cs ("c"))
        (.completed [] (cs ("error: reached end of file while parsing")) 1 1)
        (.completed [] [] 0 1)).1).tests_run = 0
    ∧ ((run_java_tests_locally (cs ("class C")) (cs ("class CTest {}")) (cs ("c"))
        (.completed [] (cs ("error: reached end of file while parsing")) 1 1)
        (.completed [] [] 0 1)).1).success = false
    ∧ ((run_java_tests_locally (cs ("class C")) (cs ("class CTest {}")) (cs ("c"))
        (.completed [] (cs ("error: reached end of file while parsing")) 1 1)
        (.completed [] [] 0 1)).1).error
      = some (cs ("Compilation failed: error: reached end of file while parsing")) := by
  decide

/-- C10 (amended): for Java inputs whose compile step exits zero and whose
run step completes, and for JavaScript/TypeScript inputs whose single `node`
run completes, the local backend reports exactly one synthetic test whose
pass/fail split is decided solely by the child process's exit code,
regardless of the suite's actual contents. -/
theorem claim_C10_amended
    (jcode jtests jmod : List Char) (cout cerr : List Char) (cel : Int)
    (rout rerr : List Char) (rrc rel : Int)
    (scode stests smod slang : List Char) (nout nerr : List Char) (nrc nel : Int) :
    ((run_java_tests_locally jcode jtests jmod (.completed cout cerr 0 cel)
        (.completed rout rerr rrc rel)).1.tests_run = 1
      ∧ (run_java_tests_locally jcode jtests jmod (.completed cout cerr 0 cel)
          (.completed rout rerr rrc rel)).1.tests_passed
        = (if rrc == 0 then 1 else 0)
      ∧ (run_java_tests_locally jcode jtests jmod (.completed cout cerr 0 cel)
          (.completed rout rerr rrc rel)).1.tests_failed
        = (if rrc == 0 then 0 else 1)
      ∧ (run_java_tests_locally jcode jtests jmod (.completed cout cerr 0 cel)
          (.completed rout rerr rrc rel)).1.success = (rrc == 0))
    ∧ ((run_js_tests_locally scode stests smod slang
          (.completed nout nerr nrc nel)).1.tests_run = 1
      ∧ (run_js_tests_locally scode stests smod slang
          (.completed nout nerr nrc nel)).1.tests_passed
        = (if nrc == 0 then 1 else 0)
      ∧ (run_js_tests_locally scode stests smod slang
          (.completed nout nerr nrc nel)).1.tests_failed
        = (if nrc == 0 then 0 else 1)
      ∧ (run_js_tests_locally scode stests smod slang
          (.completed nout nerr nrc nel)).1.success = (nrc == 0)) :=
  ⟨⟨rfl, rfl, rfl, rfl⟩, ⟨rfl, rfl, rfl, rfl⟩⟩
